import Mathlib

/-!
Shallow embedding of the M-Pesa payment-initiation relay.

The repository contains two revisions of the same Express server:
revision A is src/index.js and revision B is src/unnamed/part_000.
Both expose POST /initiate-payment and POST /callback over a
transactions table, plus an audit-logging middleware pair.
Outbound calls (token fetch, STK push) and the database insert are
modelled by oracles recording whether each call succeeds and what it
returns; a handler maps a request, the oracles and the current
transactions table to an ordered side-effect trace, an HTTP response
and the resulting table.
-/

namespace Mpesa

/-- A JSON-like value carried in a request-body field. -/
inductive JVal where
  | vstr (s : String)
  | vnum (n : Int)
  | vnull
  deriving DecidableEq

/-- JS truthiness of a possibly missing body field: undefined, null,
the number 0 and the empty string are falsy. -/
def truthyJ : Option JVal → Bool
  | none => false
  | some JVal.vnull => false
  | some (JVal.vstr s) => !(s == "")
  | some (JVal.vnum n) => !(n == 0)

/-- JS truthiness of a possibly missing string field. -/
def truthyS : Option String → Bool
  | none => false
  | some s => !(s == "")

/-- One row of the transactions table, as inserted and updated by the
two handlers (id is the store-assigned primary key OUTPUT INSERTED.id). -/
structure Txn where
  rowId : Nat
  transaction_id : String
  phone_number : String
  amount : String
  status : String
  description : String
  mpesa_receipt_number : Option String
  deriving DecidableEq

/-- The raw provider response returned by the STK push call; the code
reads only CheckoutRequestID from it, the rest is echoed back to the
client as data. -/
structure StkResponse where
  CheckoutRequestID : String
  MerchantRequestID : String
  deriving DecidableEq

/-- Response bodies produced by the handlers. -/
inductive RespBody where
  | jsonErrors (fields : List String)
  | jsonMsg (message : String) (data : StkResponse) (transactionId : Nat)
  | jsonErr (error : String)
  | text (s : String)
  deriving DecidableEq

/-- Ordered side effects of one handled request: the outbound token
call, the outbound STK push call, the transactions INSERT, the
transactions UPDATE, the api_logs INSERT, and sending the response. -/
inductive Event where
  | tokenCall
  | stkCall (phone amount orderId token : String)
  | insertTxn (t : Txn)
  | updateTxn (cid : Option String) (status : String) (receipt : Option String)
  | logInsert (endpoint : String) (reqBody : String) (respBody : Option String) (statusCode : Nat)
  | respond (status : Nat) (body : RespBody)
  deriving DecidableEq

/-- Outcome of one handled request: ordered side-effect trace, HTTP
response (status code and body), and resulting transactions table. -/
structure HandlerOutcome where
  events : List Event
  response : Nat × RespBody
  store : List Txn
  deriving DecidableEq

/-- Build an outcome whose last event is sending the response. -/
def finish (pre : List Event) (status : Nat) (b : RespBody) (st : List Txn) : HandlerOutcome :=
  { events := pre ++ [Event.respond status b], response := (status, b), store := st }

/-- The express-validator checks used by the initiate-payment route,
as abstract predicates: the handlers only consult their verdicts. -/
structure Validators where
  isMobilePhone : String → Bool
  isDecimal : String → Bool
  isEmail : String → Bool

/-- Body of POST /initiate-payment; a missing field is none. -/
structure InitiateReq where
  phone_number : Option String
  amount : Option String
  order_id : Option String
  customer_email : Option String
  deriving DecidableEq

/-- A validator applied to a possibly missing field: a missing field
fails its check. -/
def checkField (p : String → Bool) : Option String → Bool
  | none => false
  | some s => p s

/-- The fields reported by validationResult: phone_number must pass
isMobilePhone, amount isDecimal, order_id isString().notEmpty(),
customer_email isEmail (source lines 146 to 150 of both revisions). -/
def violatedFields (v : Validators) (r : InitiateReq) : List String :=
  (if checkField v.isMobilePhone r.phone_number then [] else ["phone_number"]) ++
  (if checkField v.isDecimal r.amount then [] else ["amount"]) ++
  (if checkField (fun s => !(s == "")) r.order_id then [] else ["order_id"]) ++
  (if checkField v.isEmail r.customer_email then [] else ["customer_email"])

/-- Oracle outcomes for the three effectful calls of initiate-payment,
in call order: generateMpesaToken, initiateSTKPush, and the
transactions INSERT (none models the call throwing). -/
structure Oracles where
  token : Option String
  push : Option StkResponse
  insertId : Option Nat
  deriving DecidableEq

/-- Common body of the initiate-payment route of both revisions,
parameterised by the responses sent when the token fetch, the STK
push, or the INSERT throws. On valid input it calls the token
provider, then the STK push, then inserts one Pending row keyed by
CheckoutRequestID, then responds 200 with message, data and the
store-assigned transactionId. -/
def initiateCore (errTok errPush errIns : Nat × RespBody)
    (v : Validators) (o : Oracles) (r : InitiateReq) (store : List Txn) : HandlerOutcome :=
  if violatedFields v r = [] then
    match o.token with
    | none => finish [Event.tokenCall] errTok.1 errTok.2 store
    | some tk =>
      let phone := r.phone_number.getD ""
      let amount := r.amount.getD ""
      let orderId := r.order_id.getD ""
      match o.push with
      | none => finish [Event.tokenCall, Event.stkCall phone amount orderId tk] errPush.1 errPush.2 store
      | some stk =>
        match o.insertId with
        | none => finish [Event.tokenCall, Event.stkCall phone amount orderId tk] errIns.1 errIns.2 store
        | some i =>
          let t : Txn :=
            { rowId := i
              transaction_id := stk.CheckoutRequestID
              phone_number := phone
              amount := amount
              status := "Pending"
              description := "Payment for Order " ++ orderId
              mpesa_receipt_number := none }
          finish [Event.tokenCall, Event.stkCall phone amount orderId tk, Event.insertTxn t]
            200 (RespBody.jsonMsg "Payment initiated successfully" stk i) (store ++ [t])
  else
    finish [] 400 (RespBody.jsonErrors (violatedFields v r)) store

/-- POST /initiate-payment of revision A (src/index.js lines 146 to
198): every thrown error reaches the centralized handler and becomes
HTTP 500 with a generic body. -/
def initiatePaymentA : Validators → Oracles → InitiateReq → List Txn → HandlerOutcome :=
  initiateCore (500, RespBody.jsonErr "Internal Server Error")
    (500, RespBody.jsonErr "Internal Server Error")
    (500, RespBody.jsonErr "Internal Server Error")

/-- POST /initiate-payment of revision B (src/unnamed/part_000 lines
146 to 191): a token failure is answered 503, an STK push failure 502,
and any other thrown error (the INSERT) goes to the centralized
handler and becomes 500. -/
def initiatePaymentB : Validators → Oracles → InitiateReq → List Txn → HandlerOutcome :=
  initiateCore (503, RespBody.jsonErr "Service temporarily unavailable. Please try again later.")
    (502, RespBody.jsonErr "Payment initiation failed. Please try again later.")
    (500, RespBody.jsonErr "Internal Server Error")

/-- Body of POST /callback. -/
structure CallbackPayload where
  ResultCode : Option JVal
  CheckoutRequestID : Option String
  MpesaReceiptNumber : Option String
  deriving DecidableEq

/-- The status computed by both revisions: ResultCode strictly equal
to the string "0" gives Success, anything else gives Failed. -/
def paymentStatus (rc : Option JVal) : String :=
  if rc == some (JVal.vstr "0") then "Success" else "Failed"

/-- SQL row match of the callback UPDATE: transaction_id equals the
supplied CheckoutRequestID; a missing value (SQL NULL) matches no row. -/
def matchesCid (cid : Option String) (t : Txn) : Bool :=
  cid == some t.transaction_id

/-- The callback UPDATE: set status and receipt on every matching row
and report the number of rows affected. -/
def updateTxns (cid : Option String) (st : String) (rcpt : Option String)
    (store : List Txn) : List Txn × Nat :=
  (store.map (fun t => if matchesCid cid t then { t with status := st, mpesa_receipt_number := rcpt } else t),
   (store.filter (matchesCid cid)).length)

/-- POST /callback of revision A (src/index.js lines 201 to 228): no
missing-field guard and no rows-affected check; the UPDATE always runs
and the handler always acknowledges 200. -/
def callbackA (p : CallbackPayload) (store : List Txn) : HandlerOutcome :=
  let st := paymentStatus p.ResultCode
  let upd := updateTxns p.CheckoutRequestID st p.MpesaReceiptNumber store
  finish [Event.updateTxn p.CheckoutRequestID st p.MpesaReceiptNumber]
    200 (RespBody.text "Callback received and transaction status updated") upd.1

/-- Revision B passes MpesaReceiptNumber or null to the UPDATE, so a
falsy value becomes null. -/
def coalesceReceipt : Option String → Option String
  | none => none
  | some s => if s == "" then none else some s

/-- POST /callback of revision B (src/unnamed/part_000 lines 197 to
232): a falsy ResultCode or CheckoutRequestID is rejected 400 before
any store access; otherwise the UPDATE runs, zero rows affected gives
404, and at least one row gives 200. -/
def callbackB (p : CallbackPayload) (store : List Txn) : HandlerOutcome :=
  if !(truthyJ p.ResultCode) || !(truthyS p.CheckoutRequestID) then
    finish [] 400 (RespBody.text "Missing required callback data") store
  else
    let st := paymentStatus p.ResultCode
    let rcpt := coalesceReceipt p.MpesaReceiptNumber
    let upd := updateTxns p.CheckoutRequestID st rcpt store
    if upd.2 = 0 then
      finish [Event.updateTxn p.CheckoutRequestID st rcpt] 404 (RespBody.text "Transaction not found") upd.1
    else
      finish [Event.updateTxn p.CheckoutRequestID st rcpt] 200 (RespBody.text "Callback received and transaction status updated") upd.1

/-- The audit middleware pair (lines 55 to 89 of both revisions): for
a path not starting with /health it inserts one api_logs row during
request dispatch, before the route handler runs, so it reads the
default status code 200 and the still-unset res.locals response
payload (none); an insert failure is swallowed. -/
def auditEvents (endpoint reqBody : String) (logOk : Bool) : List Event :=
  if List.isPrefixOf "/health".data endpoint.data then []
  else if logOk then [Event.logInsert endpoint reqBody none 200] else []

/-- Full pipeline for one exchange: the audit middleware runs first,
then the route handler produces its events. -/
def pipeline (endpoint reqBody : String) (logOk : Bool) (h : HandlerOutcome) : List Event :=
  auditEvents endpoint reqBody logOk ++ h.events

/-- Is this event a transactions INSERT. -/
def isInsert : Event → Bool
  | Event.insertTxn _ => true
  | _ => false

/-- Is this event the sending of a response. -/
def isRespondEv : Event → Bool
  | Event.respond _ _ => true
  | _ => false

/-- Is this event an api_logs INSERT. -/
def isLog : Event → Bool
  | Event.logInsert _ _ _ _ => true
  | _ => false

/-- Number of transactions INSERT events in a trace. -/
def insertCount (evs : List Event) : Nat :=
  (evs.filter isInsert).length

/-- Number of api_logs INSERT events in a trace. -/
def logCount (evs : List Event) : Nat :=
  (evs.filter isLog).length

/-- True when a transactions INSERT occurs and a response is sent
strictly after it. -/
def insertThenRespond : List Event → Bool
  | [] => false
  | Event.insertTxn _ :: rest => rest.any isRespondEv
  | _ :: rest => insertThenRespond rest

/-- True when an api_logs INSERT occurs and a response is sent
strictly after it. -/
def logThenRespond : List Event → Bool
  | [] => false
  | Event.logInsert _ _ _ _ :: rest => rest.any isRespondEv
  | _ :: rest => logThenRespond rest

/-- The status values carried by the UPDATE statements of a trace. -/
def writtenStatuses (evs : List Event) : List String :=
  evs.filterMap (fun e => match e with
    | Event.updateTxn _ st _ => some st
    | _ => none)

/-- The status codes recorded by the api_logs rows of a trace. -/
def loggedStatusCodes (evs : List Event) : List Nat :=
  evs.filterMap (fun e => match e with
    | Event.logInsert _ _ _ c => some c
    | _ => none)

/-- The response payloads recorded by the api_logs rows of a trace. -/
def loggedResponses (evs : List Event) : List (Option String) :=
  evs.filterMap (fun e => match e with
    | Event.logInsert _ _ b _ => some b
    | _ => none)

/-- Validators that accept every present field, for concrete runs. -/
def vAll : Validators :=
  { isMobilePhone := fun _ => true, isDecimal := fun _ => true, isEmail := fun _ => true }

/-- A well-formed initiate request (Scenario A of the spec). -/
def rOk : InitiateReq :=
  { phone_number := some "254712345678", amount := some "100",
    order_id := some "ORD1", customer_email := some "a@b.com" }

/-- The same request with a different customer_email. -/
def rOk2 : InitiateReq :=
  { phone_number := some "254712345678", amount := some "100",
    order_id := some "ORD1", customer_email := some "c@d.com" }

/-- A request with a missing phone_number. -/
def rBad : InitiateReq :=
  { phone_number := none, amount := some "100",
    order_id := some "ORD1", customer_email := some "a@b.com" }

/-- A concrete provider response. -/
def stk1 : StkResponse := { CheckoutRequestID := "ws_1", MerchantRequestID := "m_1" }

/-- Oracles where every call succeeds. -/
def oOk : Oracles := { token := some "T1", push := some stk1, insertId := some 7 }

/-- Oracles where the token fetch throws. -/
def oTokFail : Oracles := { token := none, push := none, insertId := none }

/-- The Pending row created by Scenario A. -/
def txnW : Txn :=
  { rowId := 7, transaction_id := "ws_1", phone_number := "254712345678",
    amount := "100", status := "Pending",
    description := "Payment for Order ORD1", mpesa_receipt_number := none }

/-- Callback with ResultCode "1032" for a known transaction. -/
def cbFail1032 : CallbackPayload :=
  { ResultCode := some (JVal.vstr "1032"), CheckoutRequestID := some "ws_1",
    MpesaReceiptNumber := none }

/-- Callback whose CheckoutRequestID matches no row. -/
def cbUnmatched : CallbackPayload :=
  { ResultCode := some (JVal.vstr "1"), CheckoutRequestID := some "ws_missing",
    MpesaReceiptNumber := none }

/-- Callback with a missing ResultCode. -/
def cbNoRC : CallbackPayload :=
  { ResultCode := none, CheckoutRequestID := some "ws_1", MpesaReceiptNumber := none }

/-- Callback carrying the number 0 as ResultCode. -/
def cbNumZero : CallbackPayload :=
  { ResultCode := some (JVal.vnum 0), CheckoutRequestID := some "ws_1",
    MpesaReceiptNumber := some "R1" }

/-- C1: in both revisions, when input validation passes and the token
fetch, the STK push and the INSERT all succeed, exactly one
transactions row is inserted, with status Pending and transaction_id
equal to the provider CheckoutRequestID, the insert precedes the
sending of the response, and the response is HTTP 200 with message,
data and transactionId. -/
theorem initiate_success_inserts_pending
    (v : Validators) (o : Oracles) (r : InitiateReq) (s : List Txn)
    (tk : String) (stk : StkResponse) (i : Nat)
    (hv : violatedFields v r = []) (ht : o.token = some tk)
    (hp : o.push = some stk) (hi : o.insertId = some i) :
    ∃ t : Txn,
      (initiatePaymentA v o r s).store = s ++ [t] ∧
      (initiatePaymentB v o r s).store = s ++ [t] ∧
      t.status = "Pending" ∧
      t.transaction_id = stk.CheckoutRequestID ∧
      insertCount (initiatePaymentA v o r s).events = 1 ∧
      insertCount (initiatePaymentB v o r s).events = 1 ∧
      insertThenRespond (initiatePaymentA v o r s).events = true ∧
      insertThenRespond (initiatePaymentB v o r s).events = true ∧
      (initiatePaymentA v o r s).response =
        (200, RespBody.jsonMsg "Payment initiated successfully" stk i) ∧
      (initiatePaymentB v o r s).response =
        (200, RespBody.jsonMsg "Payment initiated successfully" stk i) := by
  obtain ⟨tok, pu, ins⟩ := o
  simp only at ht hp hi
  subst ht hp hi
  refine ⟨{ rowId := i, transaction_id := stk.CheckoutRequestID,
            phone_number := r.phone_number.getD "", amount := r.amount.getD "",
            status := "Pending",
            description := "Payment for Order " ++ r.order_id.getD "",
            mpesa_receipt_number := none }, ?_⟩
  simp [initiatePaymentA, initiatePaymentB, initiateCore, finish, hv,
    insertCount, insertThenRespond, isInsert, isRespondEv, List.any]

/-- Witness for C1 at Scenario A of the spec. -/
theorem initiate_success_inserts_pending_w :
    ∃ t : Txn,
      (initiatePaymentA vAll oOk rOk []).store = [] ++ [t] ∧
      (initiatePaymentB vAll oOk rOk []).store = [] ++ [t] ∧
      t.status = "Pending" ∧
      t.transaction_id = stk1.CheckoutRequestID ∧
      insertCount (initiatePaymentA vAll oOk rOk []).events = 1 ∧
      insertCount (initiatePaymentB vAll oOk rOk []).events = 1 ∧
      insertThenRespond (initiatePaymentA vAll oOk rOk []).events = true ∧
      insertThenRespond (initiatePaymentB vAll oOk rOk []).events = true ∧
      (initiatePaymentA vAll oOk rOk []).response =
        (200, RespBody.jsonMsg "Payment initiated successfully" stk1 7) ∧
      (initiatePaymentB vAll oOk rOk []).response =
        (200, RespBody.jsonMsg "Payment initiated successfully" stk1 7) :=
  initiate_success_inserts_pending vAll oOk rOk [] "T1" stk1 7 rfl rfl rfl rfl

/-- C6: in both revisions, when the token fetch or the STK push
throws, no transactions row is inserted and the table is unchanged:
the INSERT runs only after both upstream calls succeed. -/
theorem upstream_failure_no_insert
    (v : Validators) (o : Oracles) (r : InitiateReq) (s : List Txn)
    (h : o.token = none ∨ o.push = none) :
    insertCount (initiatePaymentA v o r s).events = 0 ∧
    (initiatePaymentA v o r s).store = s ∧
    insertCount (initiatePaymentB v o r s).events = 0 ∧
    (initiatePaymentB v o r s).store = s := by
  obtain ⟨tok, pu, ins⟩ := o
  by_cases hv : violatedFields v r = [] <;>
    cases tok <;> cases pu <;> cases ins <;>
      simp_all [initiatePaymentA, initiatePaymentB, initiateCore, finish,
        insertCount, isInsert]

/-- Witness for C6 with a failing token provider. -/
theorem upstream_failure_no_insert_w :
    insertCount (initiatePaymentA vAll oTokFail rOk [txnW]).events = 0 ∧
    (initiatePaymentA vAll oTokFail rOk [txnW]).store = [txnW] ∧
    insertCount (initiatePaymentB vAll oTokFail rOk [txnW]).events = 0 ∧
    (initiatePaymentB vAll oTokFail rOk [txnW]).store = [txnW] :=
  upstream_failure_no_insert vAll oTokFail rOk [txnW] (Or.inl rfl)

/-- C7: in both revisions, when any of the four fields is missing or
fails its validator, the response is HTTP 400 carrying the list of
violated fields, the trace holds nothing but the response (no token
call, no STK push, no INSERT), and the table is unchanged. -/
theorem validation_failure_no_side_effects
    (v : Validators) (o : Oracles) (r : InitiateReq) (s : List Txn)
    (h : violatedFields v r ≠ []) :
    (initiatePaymentA v o r s).response = (400, RespBody.jsonErrors (violatedFields v r)) ∧
    (initiatePaymentB v o r s).response = (400, RespBody.jsonErrors (violatedFields v r)) ∧
    (initiatePaymentA v o r s).events = [Event.respond 400 (RespBody.jsonErrors (violatedFields v r))] ∧
    (initiatePaymentB v o r s).events = [Event.respond 400 (RespBody.jsonErrors (violatedFields v r))] ∧
    (initiatePaymentA v o r s).store = s ∧
    (initiatePaymentB v o r s).store = s := by
  simp [initiatePaymentA, initiatePaymentB, initiateCore, finish, h]

/-- Witness for C7 on a request with a missing phone_number. -/
theorem validation_failure_no_side_effects_w :
    (initiatePaymentA vAll oOk rBad []).response = (400, RespBody.jsonErrors (violatedFields vAll rBad)) ∧
    (initiatePaymentB vAll oOk rBad []).response = (400, RespBody.jsonErrors (violatedFields vAll rBad)) ∧
    (initiatePaymentA vAll oOk rBad []).events = [Event.respond 400 (RespBody.jsonErrors (violatedFields vAll rBad))] ∧
    (initiatePaymentB vAll oOk rBad []).events = [Event.respond 400 (RespBody.jsonErrors (violatedFields vAll rBad))] ∧
    (initiatePaymentA vAll oOk rBad []).store = [] ∧
    (initiatePaymentB vAll oOk rBad []).store = [] :=
  validation_failure_no_side_effects vAll oOk rBad [] (by decide)

/-- C2 counterexample: on a valid request whose token fetch fails,
revision A (src/index.js) responds HTTP 500, not 503: its route sends
every thrown error to the centralized handler. -/
theorem token_failure_indexjs_500 :
    (initiatePaymentA vAll oTokFail rOk []).response =
      (500, RespBody.jsonErr "Internal Server Error") ∧
    (initiatePaymentA vAll oTokFail rOk []).response.1 ≠ 503 := by
  refine ⟨rfl, by decide⟩

/-- C2 amended: in revision B the three failure classes map to 503,
502 and 500, are mutually exclusive and are decided in call order
(token, then push, then store); in revision A each of the three
failures yields HTTP 500. -/
theorem failure_taxonomy_by_revision
    (v : Validators) (o : Oracles) (r : InitiateReq) (s : List Txn)
    (hv : violatedFields v r = []) :
    ((initiatePaymentB v o r s).response.1 = 503 ↔ o.token = none) ∧
    ((initiatePaymentB v o r s).response.1 = 502 ↔ (o.token ≠ none ∧ o.push = none)) ∧
    ((initiatePaymentB v o r s).response.1 = 500 ↔
      (o.token ≠ none ∧ o.push ≠ none ∧ o.insertId = none)) ∧
    ((o.token = none ∨ o.push = none ∨ o.insertId = none) →
      (initiatePaymentA v o r s).response.1 = 500) := by
  obtain ⟨tok, pu, ins⟩ := o
  cases tok <;> cases pu <;> cases ins <;>
    simp [initiatePaymentA, initiatePaymentB, initiateCore, finish, hv]

/-- Witness for the amended C2 with a failing token provider. -/
theorem failure_taxonomy_by_revision_w :
    (initiatePaymentB vAll oTokFail rOk []).response.1 = 503 :=
  ((failure_taxonomy_by_revision vAll oTokFail rOk [] rfl).1).mpr rfl

/-- C3: on a callback whose CheckoutRequestID matches no row, revision
B responds 404 with the table unchanged, but revision A (src/index.js)
never checks the affected row count and acknowledges HTTP 200 -- the
code slip the claim and the spec call out. -/
theorem unmatched_callback_divergence :
    (callbackA cbUnmatched [txnW]).response =
      (200, RespBody.text "Callback received and transaction status updated") ∧
    (callbackA cbUnmatched [txnW]).store = [txnW] ∧
    (callbackB cbUnmatched [txnW]).response = (404, RespBody.text "Transaction not found") ∧
    (callbackB cbUnmatched [txnW]).store = [txnW] := by
  refine ⟨rfl, by decide, by decide, by decide⟩

/-- C4: in both revisions, every status value carried by the callback
UPDATE equals paymentStatus of the ResultCode of the payload, and
paymentStatus reads nothing but the ResultCode, so two payloads that
agree on ResultCode write the same status whatever their other fields. -/
theorem callback_status_pure_function
    (p : CallbackPayload) (s : List Txn) :
    (∀ st2 ∈ writtenStatuses (callbackA p s).events, st2 = paymentStatus p.ResultCode) ∧
    (∀ st2 ∈ writtenStatuses (callbackB p s).events, st2 = paymentStatus p.ResultCode) ∧
    (∀ q : CallbackPayload, q.ResultCode = p.ResultCode →
      paymentStatus q.ResultCode = paymentStatus p.ResultCode) := by
  refine ⟨?_, ?_, ?_⟩
  · intro st2 hst
    simp [callbackA, finish, writtenStatuses] at hst
    exact hst
  · intro st2 hst
    by_cases hg : (!(truthyJ p.ResultCode) || !(truthyS p.CheckoutRequestID)) = true
    · simp [callbackB, hg, finish, writtenStatuses] at hst
    · by_cases hz : (updateTxns p.CheckoutRequestID (paymentStatus p.ResultCode)
          (coalesceReceipt p.MpesaReceiptNumber) s).2 = 0 <;>
        · simp [callbackB, hg, hz, finish, writtenStatuses] at hst
          exact hst
  · intro q hq
    rw [hq]

/-- Witness for C4 at a concrete failed callback. -/
theorem callback_status_pure_function_w :
    "Failed" = paymentStatus cbFail1032.ResultCode :=
  (callback_status_pure_function cbFail1032 [txnW]).1 "Failed" (by decide)

/-- C5 counterexample: revision A (src/index.js) has no missing-field
guard: a callback with no ResultCode whose CheckoutRequestID matches a
Pending row is acknowledged HTTP 200 and the row is rewritten to
Failed, not rejected 400 with the store untouched. -/
theorem missing_resultcode_indexjs_mutates :
    (callbackA cbNoRC [txnW]).response.1 = 200 ∧
    (callbackA cbNoRC [txnW]).store =
      [{ txnW with status := "Failed", mpesa_receipt_number := none }] := by
  refine ⟨rfl, by decide⟩

/-- C5 amended: in revision B a callback missing ResultCode or
CheckoutRequestID is answered HTTP 400 with no UPDATE run and the
table unchanged; in revision A the handler runs the UPDATE anyway and
always acknowledges HTTP 200. -/
theorem missing_fields_guard_by_revision
    (p : CallbackPayload) (s : List Txn)
    (h : p.ResultCode = none ∨ p.CheckoutRequestID = none) :
    (callbackB p s).response = (400, RespBody.text "Missing required callback data") ∧
    (callbackB p s).store = s ∧
    writtenStatuses (callbackB p s).events = [] ∧
    (callbackA p s).response.1 = 200 := by
  have hg : (!(truthyJ p.ResultCode) || !(truthyS p.CheckoutRequestID)) = true := by
    rcases h with h | h <;> simp [h, truthyJ, truthyS]
  simp [callbackA, callbackB, hg, finish, writtenStatuses]

/-- Witness for the amended C5 on a callback with no ResultCode. -/
theorem missing_fields_guard_by_revision_w :
    (callbackB cbNoRC [txnW]).response = (400, RespBody.text "Missing required callback data") ∧
    (callbackB cbNoRC [txnW]).store = [txnW] ∧
    writtenStatuses (callbackB cbNoRC [txnW]).events = [] ∧
    (callbackA cbNoRC [txnW]).response.1 = 200 :=
  missing_fields_guard_by_revision cbNoRC [txnW] (Or.inl rfl)

/-- C8: the audit middleware of both revisions runs during request
dispatch, before the route handler: on a /callback exchange that ends
404 the single api_logs row is written before the response is sent and
records the default status code 200 and no response payload, contrary
to a row written after the response recording the actual body and
status. -/
theorem audit_log_written_before_response :
    pipeline "/callback" "cb" true (callbackB cbUnmatched [txnW]) =
      Event.logInsert "/callback" "cb" none 200 :: (callbackB cbUnmatched [txnW]).events ∧
    (callbackB cbUnmatched [txnW]).response.1 = 404 ∧
    logCount (pipeline "/callback" "cb" true (callbackB cbUnmatched [txnW])) = 1 ∧
    logThenRespond (pipeline "/callback" "cb" true (callbackB cbUnmatched [txnW])) = true ∧
    loggedStatusCodes (pipeline "/callback" "cb" true (callbackB cbUnmatched [txnW])) = [200] ∧
    loggedResponses (pipeline "/callback" "cb" true (callbackB cbUnmatched [txnW])) = [none] := by
  refine ⟨by decide, by decide, by decide, by decide, by decide, by decide⟩

/-- C9: ResultCode is compared to the string "0" with strict equality,
so a numeric 0 never maps to Success: revision B rejects it as falsy
with HTTP 400 and an unchanged table, and revision A writes Failed. -/
theorem numeric_zero_resultcode_never_success
    (p : CallbackPayload) (s : List Txn)
    (h : p.ResultCode = some (JVal.vnum 0)) :
    (callbackB p s).response = (400, RespBody.text "Missing required callback data") ∧
    (callbackB p s).store = s ∧
    paymentStatus p.ResultCode = "Failed" ∧
    (∀ st2 ∈ writtenStatuses (callbackA p s).events, st2 = "Failed") := by
  have hf : truthyJ p.ResultCode = false := by rw [h]; rfl
  have hs : paymentStatus p.ResultCode = "Failed" := by rw [h]; rfl
  refine ⟨?_, ?_, hs, ?_⟩
  · simp [callbackB, hf, finish]
  · simp [callbackB, hf, finish]
  · intro st2 hst
    simp [callbackA, finish, writtenStatuses] at hst
    rw [hst, hs]

/-- Witness for C9 on a callback carrying the number 0. -/
theorem numeric_zero_resultcode_never_success_w :
    (callbackB cbNumZero [txnW]).response = (400, RespBody.text "Missing required callback data") ∧
    (callbackB cbNumZero [txnW]).store = [txnW] ∧
    paymentStatus cbNumZero.ResultCode = "Failed" ∧
    (∀ st2 ∈ writtenStatuses (callbackA cbNumZero [txnW]).events, st2 = "Failed") :=
  numeric_zero_resultcode_never_success cbNumZero [txnW] rfl

/-- C10: customer_email is validated but never used: two valid
initiate requests of either revision that agree on phone_number,
amount and order_id produce identical traces, responses and resulting
tables whatever their customer_email. -/
theorem customer_email_noninterference
    (v : Validators) (o : Oracles) (r1 r2 : InitiateReq) (s : List Txn)
    (hp : r1.phone_number = r2.phone_number)
    (ha : r1.amount = r2.amount)
    (ho : r1.order_id = r2.order_id)
    (h1 : violatedFields v r1 = [])
    (h2 : violatedFields v r2 = []) :
    initiatePaymentA v o r1 s = initiatePaymentA v o r2 s ∧
    initiatePaymentB v o r1 s = initiatePaymentB v o r2 s := by
  obtain ⟨p1, a1, oi1, e1⟩ := r1
  obtain ⟨p2, a2, oi2, e2⟩ := r2
  simp only at hp ha ho
  subst hp ha ho
  constructor <;>
    simp [initiatePaymentA, initiatePaymentB, initiateCore, h1, h2]

/-- Witness for C10 on two requests differing only in customer_email. -/
theorem customer_email_noninterference_w :
    initiatePaymentA vAll oOk rOk [] = initiatePaymentA vAll oOk rOk2 [] ∧
    initiatePaymentB vAll oOk rOk [] = initiatePaymentB vAll oOk rOk2 [] :=
  customer_email_noninterference vAll oOk rOk rOk2 [] rfl rfl rfl rfl rfl

end Mpesa
